import Mathlib

/-!
Verification of the s3 client object operations (`Put`, `Get`, `GetPartial`,
`StatObject`), the `blockingWriteCloser` synchronization, and the `pipe`
fan-out dispatcher, as a shallow embedding in Lean.

Modelling conventions:
* Go errors are `Option Err` (`none` = nil error).
* `iodine.New(err, nil)` wraps a non-nil error and returns nil for a nil
  error; the source's `Write` method depends on this (a successful write
  returns `iodine.New(nil, nil)`, which must be nil for uploads to work).
* The HTTP transport is an oracle `Request → TransportResult`; the request
  builder `newReq` and the response-derived error `NewError` live outside
  the given sources and are modelled from the spec where noted.
* Request signing only adds authentication headers and is excluded by the
  spec as an opaque capability; it is not modelled.
-/

/-- Error values observed by the client operations. `iodined` is the stack
wrapper added by `iodine.New` around a non-nil error. -/
inductive Err where
  | hexError (input : String)
  | transportErr (msg : String)
  | invalidRange (offset : Int)
  | invalidArgument
  | objectNotFound (bucket key : String)
  | protocolError (status : Nat)
  | parseIntError (input : String)
  | parseTimeError (input : String)
  | iodined (e : Err)
deriving DecidableEq

/-- `iodine.New(err, nil)`: nil stays nil, a non-nil error is wrapped. -/
def iodineNew : Option Err → Option Err
  | none => none
  | some e => some (.iodined e)

/-- An outgoing HTTP request, restricted to the fields the client sets:
method, URL, `ContentLength`, and headers. -/
structure Request where
  method : String
  url : String
  contentLength : Int
  headers : List (String × String)
deriving DecidableEq

/-- An HTTP response, restricted to the fields the client reads. -/
structure Response where
  status : Nat
  headers : List (String × String)
  contentLength : Int
deriving DecidableEq

/-- Outcome of handing a request to the transport (`http.Client.Do` /
`Transport.RoundTrip`): a transport error or a response. -/
inductive TransportResult where
  | failure (msg : String)
  | response (res : Response)

/-- `http.Header.Set`: replace any existing value for the key. -/
def headerSet (h : List (String × String)) (k v : String) : List (String × String) :=
  (k, v) :: h.filter (fun p => p.1 != k)

/-- `http.Header.Get`: first value for the key, `""` when absent. -/
def headerGet (h : List (String × String)) (k : String) : String :=
  match h.find? (fun p => p.1 == k) with
  | some p => p.2
  | none => ""

/-- Modelled from the spec: `keyURL` (not in the given sources) addresses
`<host>/<bucket>/<key>`; the host part is irrelevant to the claims. -/
def keyURL (bucket key : String) : String := bucket ++ "/" ++ key

/-- Modelled from the spec: `newReq` (not in the given sources) is the
request builder, returning a GET request for the URL; callers override the
method. A nil-body request has `ContentLength` 0. -/
def newReq (url : String) : Request :=
  { method := "GET", url := url, contentLength := 0, headers := [] }

/-- Go `strings.TrimSpace` white-space class, ASCII part plus NEL and NBSP
(the exotic Unicode space code points play no role in the claims). -/
def isGoSpace (c : Char) : Bool :=
  c == ' ' || c == '\t' || c == '\n' || c == '\r' ||
  c.toNat == 11 || c.toNat == 12 || c.toNat == 133 || c.toNat == 160

/-- Go `strings.TrimSpace`. -/
def trimSpace (s : String) : String :=
  String.mk (((s.toList.dropWhile isGoSpace).reverse.dropWhile isGoSpace).reverse)

/-- Value of a hexadecimal digit, as in `encoding/hex`. -/
def hexDigitVal? (c : Char) : Option Nat :=
  if '0' ≤ c ∧ c ≤ '9' then some (c.toNat - 48)
  else if 'a' ≤ c ∧ c ≤ 'f' then some (c.toNat - 87)
  else if 'A' ≤ c ∧ c ≤ 'F' then some (c.toNat - 55)
  else none

/-- Decode a hexadecimal character list two digits at a time; odd length or
an invalid digit is an error, as in `hex.DecodeString`. -/
def hexPairs? : List Char → Option (List Nat)
  | [] => some []
  | [_] => none
  | a :: b :: rest =>
    match hexDigitVal? a, hexDigitVal? b, hexPairs? rest with
    | some ha, some hb, some t => some ((ha * 16 + hb) :: t)
    | _, _, _ => none

/-- `hex.DecodeString`. -/
def hexDecode? (s : String) : Option (List Nat) := hexPairs? s.toList

/-- The standard base64 alphabet of `encoding/base64.StdEncoding`. -/
def b64Chars : List Char :=
  "ABCDEFGHIJKLMNOPQRSTUVWXYZabcdefghijklmnopqrstuvwxyz0123456789+/".toList

/-- Character for a 6-bit group. -/
def b64Char (n : Nat) : Char := b64Chars.getD n 'A'

/-- Base64 encoding of a byte list, three bytes to four characters, with
`=` padding, as in `base64.StdEncoding.EncodeToString`. -/
def base64Chunks : List Nat → List Char
  | [] => []
  | [a] => [b64Char (a / 4), b64Char ((a % 4) * 16), '=', '=']
  | [a, b] => [b64Char (a / 4), b64Char ((a % 4) * 16 + b / 16), b64Char ((b % 16) * 4), '=']
  | a :: b :: c :: rest =>
    b64Char (a / 4) :: b64Char ((a % 4) * 16 + b / 16) ::
    b64Char ((b % 16) * 4 + c / 64) :: b64Char (c % 64) :: base64Chunks rest

/-- `base64.StdEncoding.EncodeToString`. -/
def base64Encode (bytes : List Nat) : String := String.mk (base64Chunks bytes)

/-! ## The blocking write closer (source lines 103-135) -/

/-- State of a `blockingWriteCloser`: the wait-group counter (`Add(1)` at
construction) and the stored error slot. -/
structure BWC where
  pending : Nat
  stored : Option Err
deriving DecidableEq

/-- `NewBlockingWriteCloser`: counter 1, no stored error. -/
def bwcNew : BWC := { pending := 1, stored := none }

/-- `Release(err)`: `wg.Done()`, then store the error if it is non-nil
(source lines 124-129; the internal ordering of these two effects is
modelled step by step separately for the interleaving analysis). -/
def bwcRelease (e : Option Err) (b : BWC) : BWC :=
  { pending := b.pending - 1, stored := if e.isSome then e else b.stored }

/-! ## Put (source lines 59-101) -/

/-- Events performed by Put's background sender, in order: closing the pipe
read end (with or without an error) and releasing the handle. -/
inductive BgEvent where
  | closeReaderWith (e : Option Err)
  | closeReader
  | release (e : Option Err)
deriving DecidableEq

/-- A run of the background sender: the events it performed and the request
it handed to the transport, if it reached that point. -/
structure BgRun where
  events : List BgEvent
  sent : Option Request
deriving DecidableEq

/-- The request Put builds before the MD5 branch: a PUT for the key URL
whose `ContentLength` is the caller-supplied size (source lines 64-66). -/
def putInitRequest (bucket key : String) (size : Int) : Request :=
  { method := "PUT", url := keyURL bucket key, contentLength := size, headers := [] }

/-- The tail of the background sender from `client.Do` on (source lines
81-98): a transport error is wrapped and released; a non-200 status wraps
the — at that point necessarily nil — transport error `err` and releases
it; a 200 releases nil and closes the reader. -/
def putSend (req : Request) (transport : Request → TransportResult) : BgRun :=
  match transport req with
  | .failure m =>
    let e := iodineNew (some (.transportErr m))
    { events := [.closeReaderWith e, .release e], sent := some req }
  | .response res =>
    if res.status ≠ 200 then
      let e := iodineNew none
      { events := [.closeReaderWith e, .release e], sent := some req }
    else
      { events := [.release none, .closeReader], sent := some req }

/-- Put's background sender (source lines 63-99): build the request, attach
`Content-MD5` when the trimmed hash string is non-empty (a hex-decode
failure closes the reader with the wrapped error and releases it), then
send. -/
def putBackground (bucket key md5HexString : String) (size : Int)
    (transport : Request → TransportResult) : BgRun :=
  let req := putInitRequest bucket key size
  if trimSpace md5HexString ≠ "" then
    match hexDecode? md5HexString with
    | none =>
      let e := iodineNew (some (.hexError md5HexString))
      { events := [.closeReaderWith e, .release e], sent := none }
    | some md5 =>
      putSend { req with headers := headerSet req.headers "Content-MD5" (base64Encode md5) } transport
  else
    putSend req transport

/-- Put's synchronous part (source lines 60-62, 100): a fresh blocking
write closer and a nil error, unconditionally. -/
def put (bucket key md5HexString : String) (size : Int) : BWC × Option Err :=
  (bwcNew, none)

/-- The errors carried by the `release` events of a run, in order. -/
def releasePayloads : List BgEvent → List (Option Err)
  | [] => []
  | .release e :: rest => e :: releasePayloads rest
  | _ :: rest => releasePayloads rest

/-- Number of `Release` invocations in a run. -/
def countReleases (events : List BgEvent) : Nat := (releasePayloads events).length

/-- The value `Close()` returns when called after the background sender has
finished: the pipe writer's own `Close` returns nil, `Wait` passes, and the
stored error is returned (source lines 115-122). -/
def closeResult (run : BgRun) : Option Err :=
  ((releasePayloads run.events).foldl (fun st e => bwcRelease e st) bwcNew).stored

/-- Go net/http: a non-negative `Request.ContentLength` declares that many
body bytes; a negative value means the length is unknown. -/
def requestHasFixedContentLength (r : Request) : Prop := 0 ≤ r.contentLength

/-! ## Get and GetPartial (source lines 173-214) -/

/-- `strings.Trim(s, "\"")`: strip leading and trailing double quotes. -/
def trimQuotes (s : String) : String :=
  String.mk (((s.toList.dropWhile (fun c => c == '"')).reverse.dropWhile
    (fun c => c == '"')).reverse)

/-- `Get` (source lines 174-187): a 200 response yields the body's length
and the ETag with its double quotes trimmed; any other status yields the
wrapped response-derived error, and a transport failure is wrapped. The
body stream itself is not modelled. -/
def Get (bucket key : String) (transport : Request → TransportResult) :
    Except Err (Int × String) :=
  match transport (newReq (keyURL bucket key)) with
  | .failure m => .error (.iodined (.transportErr m))
  | .response res =>
    if res.status ≠ 200 then .error (.iodined (.protocolError res.status))
    else .ok (res.contentLength, trimQuotes (headerGet res.headers "ETag"))

/-- The `Range` header value `GetPartial` sets (source lines 196-200). -/
def rangeValue (offset length : Int) : String :=
  if 0 ≤ length then
    "bytes=" ++ toString offset ++ "-" ++ toString (offset + length - 1)
  else
    "bytes=" ++ toString offset ++ "-"

/-- The request `GetPartial` issues once the offset check has passed. -/
def getPartialRequest (bucket key : String) (offset length : Int) : Request :=
  let req := newReq (keyURL bucket key)
  { req with headers := headerSet req.headers "Range" (rangeValue offset length) }

/-- `GetPartial` (source lines 191-214), instrumented with the list of
requests handed to the transport: a negative offset fails with the wrapped
`InvalidRange` before any request is built; otherwise the ranged request is
issued and a 200 or 206 response yields the length and the ETag verbatim,
any other status the wrapped response-derived error. -/
def getPartial (bucket key : String) (offset length : Int)
    (transport : Request → TransportResult) :
    Except Err (Int × String) × List Request :=
  if offset < 0 then
    (.error (.iodined (.invalidRange offset)), [])
  else
    match transport (getPartialRequest bucket key offset length) with
    | .failure m =>
      (.error (.iodined (.transportErr m)), [getPartialRequest bucket key offset length])
    | .response res =>
      if res.status = 200 ∨ res.status = 206 then
        (.ok (res.contentLength, headerGet res.headers "ETag"),
          [getPartialRequest bucket key offset length])
      else
        (.error (.iodined (.protocolError res.status)),
          [getPartialRequest bucket key offset length])

/-! ## StatObject (source lines 137-171) -/

/-- Value of a decimal digit. -/
def digitVal? (c : Char) : Option Nat :=
  if '0' ≤ c ∧ c ≤ '9' then some (c.toNat - 48) else none

/-- Accumulate the value of a decimal digit string; any non-digit fails. -/
def decVal? : List Char → Nat → Option Nat
  | [], acc => some acc
  | c :: rest, acc =>
    match digitVal? c with
    | none => none
    | some d => decVal? rest (acc * 10 + d)

/-- Into the signed 64-bit range, else an error, as `strconv.ParseInt`'s
range check. -/
def int64Check (v : Int) : Option Int :=
  if -(2 ^ 63) ≤ v ∧ v ≤ 2 ^ 63 - 1 then some v else none

/-- `strconv.ParseInt(s, 10, 64)`: optional sign, one or more decimal
digits, within the signed 64-bit range; anything else is an error. -/
def parseInt10? (s : String) : Option Int :=
  match s.toList with
  | [] => none
  | '+' :: rest =>
    if rest = [] then none
    else (decVal? rest 0).bind (fun n => int64Check (Int.ofNat n))
  | '-' :: rest =>
    if rest = [] then none
    else (decVal? rest 0).bind (fun n => int64Check (-(Int.ofNat n)))
  | cs => (decVal? cs 0).bind (fun n => int64Check (Int.ofNat n))

/-- `StatObject` (source lines 138-171), with `time.Parse(time.RFC1123, ·)`
abstracted as a parser returning an opaque timestamp (`none` = parse
failure; the zero-value timestamp is `0`): empty bucket or key fails with
`InvalidArgument` before any request; 404 maps to `ObjectNotFound`; 200
parses `Content-Length` in base 10 and, when a `Last-Modified` header is
present, the RFC1123 date — either parse failure is an error, an absent
header yields the zero timestamp and nil error; any other status maps to
the wrapped response-derived error. -/
def statObject (parseTime : String → Option Nat) (bucket key : String)
    (transport : Request → TransportResult) : Except Err (Int × Nat) :=
  if bucket = "" ∨ key = "" then .error (.iodined .invalidArgument)
  else
    let req := { newReq (keyURL bucket key) with method := "HEAD" }
    match transport req with
    | .failure m => .error (.iodined (.transportErr m))
    | .response res =>
      if res.status = 404 then .error (.iodined (.objectNotFound bucket key))
      else if res.status = 200 then
        match parseInt10? (headerGet res.headers "Content-Length") with
        | none => .error (.iodined (.parseIntError (headerGet res.headers "Content-Length")))
        | some size =>
          let dateStr := headerGet res.headers "Last-Modified"
          if dateStr ≠ "" then
            match parseTime dateStr with
            | none => .error (.iodined (.parseTimeError dateStr))
            | some d => .ok (size, d)
          else .ok (size, 0)
      else .error (.iodined (.protocolError res.status))

/-! ## The pipe fan-out dispatcher (pipe-main.go lines 68-87) -/

/-- A system-call level errno, as found inside an `os.PathError`. -/
inductive SysErr where
  | epipe
  | other (n : Nat)
deriving DecidableEq

/-- A Go error as seen by `pipe` through `probe.Error.ToGoError`: an
`os.PathError` wrapping an errno, or any other error. -/
inductive PipeErr where
  | pathError (e : SysErr)
  | generic (msg : String)
deriving DecidableEq

/-- `pipe` (pipe-main.go lines 68-87), with the collaborators `catOut` and
`putTargets` (not in the given sources) represented by the error each
returns: zero targets echo stdin to stdout and return `catOut`'s result
(traced, which preserves the error and its nil-ness); with targets,
`putTargets` runs and an `os.PathError` wrapping `EPIPE` is collapsed to
nil (graceful exit), while any other result is returned traced. -/
def pipe (targets : List String) (catOutErr : Option PipeErr)
    (putTargetsErr : Option PipeErr) : Option PipeErr :=
  if targets = [] then catOutErr
  else
    match putTargetsErr with
    | some (.pathError .epipe) => none
    | e => e

/-! ## Interleaving model of Close against Release (source lines 115-129)

`Close` runs `b.w.Close()` (the pipe writer's close, which returns nil),
then `b.release.Wait()`, then reads and returns `b.err`. `Release(err)`
runs `b.release.Done()` and then stores `err` into `b.err` when non-nil.
Each of these is an atomic step of its thread; a schedule is any
interleaving preserving each thread's order. The closer's wait-and-return
is one step here, which corresponds to the real interleavings in which
nothing intervenes between `Wait` returning and the read of `b.err`. -/

/-- Atomic steps of the closing caller and of the background sender. -/
inductive RStep where
  | closerCloseW
  | closerWaitReturn
  | senderDone
  | senderStore
deriving DecidableEq

/-- Shared state: wait-group counter, stored error, whether the pipe write
end is closed, and `Close`'s return value once it has returned. -/
structure RState where
  pending : Nat
  stored : Option Err
  wClosed : Bool
  closeRet : Option (Option Err)
deriving DecidableEq

/-- Initial state for one handle: counter 1, nothing stored. -/
def rInit : RState := { pending := 1, stored := none, wClosed := false, closeRet := none }

/-- One atomic step; `none` when the step is not enabled (the wait-return
step blocks until the counter is 0). `e` is the error `Release` carries. -/
def rStep (e : Option Err) (st : RState) : RStep → Option RState
  | .closerCloseW => some { st with wClosed := true }
  | .senderDone => some { st with pending := st.pending - 1 }
  | .senderStore => some { st with stored := if e.isSome then e else st.stored }
  | .closerWaitReturn =>
    if st.pending = 0 then some { st with closeRet := some st.stored } else none

/-- Run a schedule of steps; fails when a step is not enabled. -/
def runSched (e : Option Err) : List RStep → RState → Option RState
  | [], st => some st
  | s :: rest, st =>
    match rStep e st s with
    | none => none
    | some st2 => runSched e rest st2

/-- Whether a step belongs to the closing caller. -/
def isCloserStep : RStep → Bool
  | .closerCloseW => true
  | .closerWaitReturn => true
  | .senderDone => false
  | .senderStore => false

/-- A schedule is an interleaving when each thread's steps occur in its
program order: the closer closes the write end then waits and returns, and
the sender (as in source lines 124-129) calls `Done` and then stores. -/
def isInterleaving (sched : List RStep) : Prop :=
  sched.filter isCloserStep = [.closerCloseW, .closerWaitReturn] ∧
  sched.filter (fun s => !isCloserStep s) = [.senderDone, .senderStore]

/-! ## Helper lemmas -/

/-- Every exit path of `putSend` performs exactly one `release`. -/
theorem putSend_releases (req : Request) (transport : Request → TransportResult) :
    countReleases (putSend req transport).events = 1 := by
  unfold putSend
  split
  · rfl
  · split <;> rfl

/-- Every exit path of `putSend` records the request it was given as sent. -/
theorem putSend_sent (req : Request) (transport : Request → TransportResult) :
    (putSend req transport).sent = some req := by
  unfold putSend
  split
  · rfl
  · split <;> rfl

/-! ## Claim theorems -/

/-- C1 (counterexample): the broken-pipe grace is not where the claim puts
it. With one target and `putTargets` failing with an `os.PathError`
wrapping `EPIPE`, `pipe` returns nil (the claim says any transport error,
broken pipe included, is surfaced as a failure); with zero targets and
`catOut` failing the same way, `pipe` returns that error (the claim says
the zero-target case returns graceful success). -/
theorem pipe_epipe_counterexample :
    pipe ["play/bucket/object"] none (some (.pathError .epipe)) = none ∧
    pipe [] (some (.pathError .epipe)) none = some (.pathError .epipe) := by
  decide

/-- C1 (amended): the broken-pipe grace applies in the one-or-more-target
path: when `putTargets` returns an `os.PathError` wrapping `EPIPE`, `pipe`
returns nil, while any other `putTargets` result is returned unchanged;
the zero-target path returns `catOut`'s result unchanged, with no
broken-pipe special-casing. -/
theorem pipe_epipe_grace (targets : List String)
    (catOutErr putTargetsErr : Option PipeErr) (h : targets ≠ []) :
    pipe targets catOutErr (some (.pathError .epipe)) = none ∧
    (putTargetsErr ≠ some (.pathError .epipe) →
      pipe targets catOutErr putTargetsErr = putTargetsErr) ∧
    pipe [] catOutErr putTargetsErr = catOutErr := by
  refine ⟨by simp [pipe, h], ?_, by simp [pipe]⟩
  intro hne
  simp only [pipe, if_neg h]

/-- Witness for the amended C1 at one target: an `EPIPE` path error from
`putTargets` is collapsed to nil, and a different error passes through. -/
theorem pipe_epipe_grace_witness :
    pipe ["play/bucket/object"] none (some (.pathError .epipe)) = none ∧
    pipe ["play/bucket/object"] none (some (.generic "disk failure"))
      = some (.generic "disk failure") := by
  have h := pipe_epipe_grace ["play/bucket/object"] none
    (some (.generic "disk failure")) (by decide)
  exact ⟨h.1, h.2.1 (by decide)⟩

/-- C2 (code bug): when the background send completes with a non-200
status, the source wraps the transport error variable — which is
necessarily nil on that path — instead of an error derived from the
response, so `Release` carries nil and a subsequent `Close` returns nil,
not a `ProtocolError`. The sender still releases exactly once, so there is
no fault, but the failure is silently swallowed. -/
theorem put_non200_close_nil :
    closeResult (putBackground "bucket" "object" "" 0
      (fun _ => .response ⟨403, [], 0⟩)) = none ∧
    countReleases (putBackground "bucket" "object" "" 0
      (fun _ => .response ⟨403, [], 0⟩)).events = 1 := by
  decide

/-- C5: a negative offset makes `GetPartial` fail immediately with the
wrapped `InvalidRange` carrying the offset, and the list of requests handed
to the transport is empty. -/
theorem getPartial_neg_offset (bucket key : String) (offset length : Int)
    (transport : Request → TransportResult) (h : offset < 0) :
    getPartial bucket key offset length transport
      = (.error (.iodined (.invalidRange offset)), []) := by
  simp [getPartial, h]

/-- Witness for C5 at offset -1, length 7. -/
theorem getPartial_neg_offset_witness :
    getPartial "bucket" "object" (-1) 7 (fun _ => .failure "unreachable")
      = (.error (.iodined (.invalidRange (-1))), []) :=
  getPartial_neg_offset "bucket" "object" (-1) 7 _ (by decide)

/-- C8: on every exit path of the background sender — hex-decode failure,
transport error, non-200 status, or success — exactly one `release` is
performed, and the handle's wait-group starts at 1, so that single release
brings the counter to 0 and unblocks the one pending or future `Close`. -/
theorem put_release_exactly_once (bucket key md5HexString : String) (size : Int)
    (transport : Request → TransportResult) :
    countReleases (putBackground bucket key md5HexString size transport).events = 1 ∧
    bwcNew.pending = 1 ∧ ∀ e : Option Err, (bwcRelease e bwcNew).pending = 0 := by
  refine ⟨?_, rfl, fun e => rfl⟩
  unfold putBackground
  split
  · split
    · rfl
    · exact putSend_releases _ transport
  · exact putSend_releases _ transport

/-- C9 (code bug): `Release` calls `Done` before storing its error, so in
the interleaving closer-closes-write-end, sender-`Done`, closer-`Wait`
returns and `Close` reads and returns `b.err`, sender stores the error,
the `Close` returns nil although `Release` carried a non-nil error: the
result a returning `Close` observes can be provisional. -/
theorem close_stale_nil_interleaving :
    isInterleaving [.closerCloseW, .senderDone, .closerWaitReturn, .senderStore] ∧
    runSched (some (.transportErr "connection reset"))
      [.closerCloseW, .senderDone, .closerWaitReturn, .senderStore] rInit
      = some ⟨0, some (.transportErr "connection reset"), true, some none⟩ ∧
    some (Err.transportErr "connection reset") ≠ (none : Option Err) := by
  exact ⟨⟨rfl, rfl⟩, rfl, by decide⟩

/-- C3: every request the background sender hands to the transport carries
the caller-supplied size as its `ContentLength`, unmodified, so the request
declares a fixed content length exactly when the size is non-negative and
declares the length unknown for every negative size. -/
theorem put_contentLength_iff (bucket key md5HexString : String) (size : Int)
    (transport : Request → TransportResult) (req : Request)
    (h : (putBackground bucket key md5HexString size transport).sent = some req) :
    req.contentLength = size ∧ (requestHasFixedContentLength req ↔ 0 ≤ size) := by
  have hcl : req.contentLength = size := by
    unfold putBackground at h
    split at h
    · split at h
      · exact absurd h (by simp)
      · rw [putSend_sent] at h
        cases h
        rfl
    · rw [putSend_sent] at h
      cases h
      rfl
  exact ⟨hcl, by unfold requestHasFixedContentLength; rw [hcl]⟩

/-- Witness for C3 at size -1: the sent request exists and declares no
fixed content length. -/
theorem put_contentLength_iff_witness :
    (putBackground "bucket" "object" "" (-1)
        (fun _ => .response ⟨200, [], 0⟩)).sent
      = some (putInitRequest "bucket" "object" (-1)) ∧
    ¬ requestHasFixedContentLength (putInitRequest "bucket" "object" (-1)) := by
  refine ⟨by decide, fun hfix => ?_⟩
  have h := (put_contentLength_iff "bucket" "object" "" (-1)
    (fun _ => .response ⟨200, [], 0⟩) (putInitRequest "bucket" "object" (-1))
    (by decide)).2
  exact absurd (h.mp hfix) (by decide)

/-- C4 (counterexample): the source gates the MD5 branch on the trimmed
string being non-empty. The one-space string is non-empty and is not valid
hexadecimal, yet with it the branch is skipped entirely: against a
successful transport the released error is nil, so `Close` returns nil and
no decode error is ever delivered, contrary to the claim. -/
theorem put_md5_whitespace_counterexample :
    (" " : String) ≠ "" ∧
    hexDecode? " " = none ∧
    closeResult (putBackground "bucket" "object" " " 0
      (fun _ => .response ⟨200, [], 0⟩)) = none := by
  decide

/-- C4 (amended): for every `md5HexString` that is non-empty after
trimming white space, `Put` itself still returns a nil synchronous error;
when the string is not valid hexadecimal the wrapped decode error is what
a completed `Close` returns, for every transport, and when it is valid the
sent request carries `Content-MD5` set to the base64 encoding of the
decoded bytes. -/
theorem put_md5_deferred (bucket key md5HexString : String) (size : Int)
    (transport : Request → TransportResult) (h : trimSpace md5HexString ≠ "") :
    (put bucket key md5HexString size).2 = none ∧
    (hexDecode? md5HexString = none →
      closeResult (putBackground bucket key md5HexString size transport)
        = some (.iodined (.hexError md5HexString))) ∧
    (∀ bs, hexDecode? md5HexString = some bs →
      ∀ req, (putBackground bucket key md5HexString size transport).sent = some req →
        headerGet req.headers "Content-MD5" = base64Encode bs) := by
  refine ⟨rfl, ?_, ?_⟩
  · intro hd
    unfold putBackground
    rw [if_pos h, hd]
    rfl
  · intro bs hd req hreq
    unfold putBackground at hreq
    rw [if_pos h, hd, putSend_sent] at hreq
    cases hreq
    rfl

/-- Witness for the amended C4: the invalid hex string decodes to a wrapped
decode error at `Close`. -/
theorem put_md5_deferred_witness :
    closeResult (putBackground "bucket" "object" "zz" 0
      (fun _ => .response ⟨200, [], 0⟩)) = some (.iodined (.hexError "zz")) :=
  (put_md5_deferred "bucket" "object" "zz" 0
    (fun _ => .response ⟨200, [], 0⟩) (by decide)).2.1 (by decide)

/-- C6: for a non-negative offset, `GetPartial` hands the transport exactly
its one ranged request; with length non-negative its `Range` header is
`bytes=<offset>-<offset+length-1>`, whose inclusive span is precisely the
half-open integer range [offset, offset+length), and with negative length
the header is `bytes=<offset>-`. -/
theorem getPartial_range (bucket key : String) (offset length : Int)
    (transport : Request → TransportResult) (h : 0 ≤ offset) :
    (getPartial bucket key offset length transport).2
        = [getPartialRequest bucket key offset length] ∧
    (0 ≤ length →
      headerGet (getPartialRequest bucket key offset length).headers "Range"
        = "bytes=" ++ toString offset ++ "-" ++ toString (offset + length - 1) ∧
      Set.Icc offset (offset + length - 1) = Set.Ico offset (offset + length)) ∧
    (length < 0 →
      headerGet (getPartialRequest bucket key offset length).headers "Range"
        = "bytes=" ++ toString offset ++ "-") := by
  refine ⟨?_, ?_, ?_⟩
  · unfold getPartial
    rw [if_neg (not_lt.mpr h)]
    split
    · rfl
    · split <;> rfl
  · intro hl
    refine ⟨?_, ?_⟩
    · unfold getPartialRequest rangeValue
      rw [if_pos hl]
      rfl
    · ext x
      simp only [Set.mem_Icc, Set.mem_Ico, Int.le_sub_one_iff]
  · intro hl
    unfold getPartialRequest rangeValue
    rw [if_neg (not_le.mpr hl)]
    rfl

/-- Witness for C6 at offset 10: length 5 yields the header for bytes
10-14, length -1 the open-ended header. -/
theorem getPartial_range_witness :
    headerGet (getPartialRequest "bucket" "object" 10 5).headers "Range"
      = "bytes=10-14" ∧
    headerGet (getPartialRequest "bucket" "object" 10 (-1)).headers "Range"
      = "bytes=10-" := by
  constructor
  · exact (((getPartial_range "bucket" "object" 10 5
      (fun _ => .failure "unused") (by decide)).2.1 (by decide)).1).trans (by decide)
  · exact ((getPartial_range "bucket" "object" 10 (-1)
      (fun _ => .failure "unused") (by decide)).2.2 (by decide)).trans (by decide)

/-- C7: with non-empty bucket and key, `StatObject` maps a response as the
claim says: 404 to `ObjectNotFound` carrying the bucket and key; 200 to
the base-10 parse of `Content-Length` (unparsable is a parse error)
together with the RFC1123 parse of `Last-Modified` when that header is
present (unparsable is a parse error, absent tolerated as the zero
timestamp with nil error); and any other status to the wrapped
response-derived protocol error. -/
theorem statObject_mapping (parseTime : String → Option Nat) (bucket key : String)
    (res : Response) (hb : bucket ≠ "") (hk : key ≠ "") :
    (res.status = 404 →
      statObject parseTime bucket key (fun _ => .response res)
        = .error (.iodined (.objectNotFound bucket key))) ∧
    (res.status = 200 →
      (parseInt10? (headerGet res.headers "Content-Length") = none →
        statObject parseTime bucket key (fun _ => .response res)
          = .error (.iodined (.parseIntError (headerGet res.headers "Content-Length")))) ∧
      (∀ n, parseInt10? (headerGet res.headers "Content-Length") = some n →
        (headerGet res.headers "Last-Modified" = "" →
          statObject parseTime bucket key (fun _ => .response res) = .ok (n, 0)) ∧
        (headerGet res.headers "Last-Modified" ≠ "" →
          (parseTime (headerGet res.headers "Last-Modified") = none →
            statObject parseTime bucket key (fun _ => .response res)
              = .error (.iodined (.parseTimeError (headerGet res.headers "Last-Modified")))) ∧
          (∀ d, parseTime (headerGet res.headers "Last-Modified") = some d →
            statObject parseTime bucket key (fun _ => .response res) = .ok (n, d))))) ∧
    (res.status ≠ 404 → res.status ≠ 200 →
      statObject parseTime bucket key (fun _ => .response res)
        = .error (.iodined (.protocolError res.status))) := by
  have hbk : ¬ (bucket = "" ∨ key = "") := by
    rintro (hc | hc)
    · exact hb hc
    · exact hk hc
  refine ⟨?_, ?_, ?_⟩
  · intro h404
    unfold statObject
    rw [if_neg hbk]
    simp [h404]
  · intro h200
    have h404 : res.status ≠ 404 := by rw [h200]; decide
    constructor
    · intro hcl
      unfold statObject
      rw [if_neg hbk]
      simp [h404, h200, hcl]
    · intro n hcl
      constructor
      · intro hlm
        unfold statObject
        rw [if_neg hbk]
        simp [h404, h200, hcl, hlm]
      · intro hlm
        constructor
        · intro hpt
          unfold statObject
          rw [if_neg hbk]
          simp [h404, h200, hcl, hlm, hpt]
        · intro d hpt
          unfold statObject
          rw [if_neg hbk]
          simp [h404, h200, hcl, hlm, hpt]
  · intro h404 h200
    unfold statObject
    rw [if_neg hbk]
    simp [h404, h200]

/-- Witness for C7: a 404 response maps to `ObjectNotFound` for the
requested bucket and key, and a 200 response with `Content-Length` 123 and
a parsable `Last-Modified` maps to size 123 with the parsed timestamp. -/
theorem statObject_mapping_witness :
    statObject (fun _ => none) "bucket" "object"
        (fun _ => .response ⟨404, [], 0⟩)
      = .error (.iodined (.objectNotFound "bucket" "object")) ∧
    statObject (fun s => if s = "Fri, 09 Oct 2015 22:33:44 GMT" then some 77 else none)
        "bucket" "object"
        (fun _ => .response ⟨200,
          [("Content-Length", "123"), ("Last-Modified", "Fri, 09 Oct 2015 22:33:44 GMT")], 0⟩)
      = .ok (123, 77) := by
  constructor
  · exact (statObject_mapping (fun _ => none) "bucket" "object" ⟨404, [], 0⟩
      (by decide) (by decide)).1 rfl
  · exact ((((statObject_mapping
      (fun s => if s = "Fri, 09 Oct 2015 22:33:44 GMT" then some 77 else none)
      "bucket" "object"
      ⟨200, [("Content-Length", "123"), ("Last-Modified", "Fri, 09 Oct 2015 22:33:44 GMT")], 0⟩
      (by decide) (by decide)).2.1 rfl).2 123 (by decide)).2 (by decide)).2 77 (by decide)

/-- C10: on every successful response — 200 or 206 — `GetPartial` returns
the ETag header value verbatim, without stripping the surrounding double
quotes, while `Get` (whose success status is 200) returns the ETag with
the quotes stripped; on the same quoted ETag the two operations therefore
return different content-hash strings. -/
theorem etag_quote_handling (bucket key : String) (res : Response)
    (h : res.status = 200 ∨ res.status = 206) :
    (getPartial bucket key 0 1 (fun _ => .response res)).1
      = .ok (res.contentLength, headerGet res.headers "ETag") ∧
    (res.status = 200 →
      Get bucket key (fun _ => .response res)
        = .ok (res.contentLength, trimQuotes (headerGet res.headers "ETag"))) ∧
    (getPartial "bucket" "object" 0 1
        (fun _ => .response ⟨200, [("ETag", "\"abc\"")], 3⟩)).1
      = .ok (3, "\"abc\"") ∧
    (getPartial "bucket" "object" 0 1
        (fun _ => .response ⟨206, [("ETag", "\"abc\"")], 3⟩)).1
      = .ok (3, "\"abc\"") ∧
    Get "bucket" "object" (fun _ => .response ⟨200, [("ETag", "\"abc\"")], 3⟩)
      = .ok (3, "abc") ∧
    ("\"abc\"" : String) ≠ "abc" := by
  refine ⟨?_, ?_, rfl, rfl, rfl, by decide⟩
  · simp [getPartial, h]
  · intro h200
    simp [Get, h200]

/-- Witness for C10: the verbatim ETag on a 206 response, and `Get`
disagreeing with it on the same quoted ETag at 200. -/
theorem etag_quote_handling_witness :
    (getPartial "bucket" "object" 0 1
        (fun _ => .response ⟨206, [("ETag", "\"abc\"")], 3⟩)).1
      = .ok (3, "\"abc\"") ∧
    Get "bucket" "object" (fun _ => .response ⟨200, [("ETag", "\"abc\"")], 3⟩)
      = .ok (3, "abc") := by
  have h1 := etag_quote_handling "bucket" "object"
    ⟨206, [("ETag", "\"abc\"")], 3⟩ (Or.inr rfl)
  have h2 := etag_quote_handling "bucket" "object"
    ⟨200, [("ETag", "\"abc\"")], 3⟩ (Or.inl rfl)
  exact ⟨h1.1, h2.2.1 rfl⟩
